import Mathlib

/-!
Verification development for the `ffmerge` repository (file `ffmerge_gui.py`).

The file shallowly embeds the merge-invocation workflow of the program:
string normalisation (`str.strip` with a character set), extension
extraction (`os.path.splitext` + `.lower()`), the audio/video extension
classifier, the timestamp formatter (`strftime` with `%Y%m%d_%H%M%S`),
the executable locator `which_ffmpeg`, the settings store
(`load_settings` / `save_outdir`) and the merge orchestrator `merge_now`.

Filesystem queries (`os.path.isfile`, `os.path.isdir`, `os.path.exists`,
`os.path.getsize`), the wall clock, the `PATH` variable and the behaviour
of the launched subprocess are modelled as explicit parameters (`Env`,
`ProcResult`), so `merge_now` becomes a total function of the program
state, the environment and the subprocess behaviour.  `os.path.join` is
modelled with POSIX semantics (the separator character does not matter
for any property below).  JSON serialisation is external library code,
so the settings file is modelled at the level of its parse result
(`ConfigFile`).
-/

/-- Python `str.strip(chars)`: drop the characters of `cs` from both ends. -/
def pyStripChars (cs : List Char) (s : String) : String :=
  ⟨((s.toList.dropWhile (fun c => c ∈ cs)).reverse.dropWhile (fun c => c ∈ cs)).reverse⟩

/-- The whitespace characters stripped by Python `str.strip()` (ASCII range). -/
def pyWhitespace : List Char := [' ', '\t', '\n', '\r', '\x0b', '\x0c']

/-- Python `str.strip()` (no argument): strip whitespace from both ends. -/
def pyStrip (s : String) : String := pyStripChars pyWhitespace s

/-- The argument `'" '` of the `.strip` calls in `merge_now`: double quote and space. -/
def quotSpace : List Char := ['"', ' ']

/-- The normalisation `s.strip('" ')` applied to the three entry strings in `merge_now`. -/
def strip_quot_space (s : String) : String := pyStripChars quotSpace s

/-- Python `s.split(sep)` for a single-character separator, on character lists. -/
def splitCharList (sep : Char) : List Char → List (List Char)
  | [] => [[]]
  | c :: rest =>
    match splitCharList sep rest with
    | h :: t => if c = sep then [] :: h :: t else (c :: h) :: t
    | [] => [[c]]

/-- Python `s.split(sep)` for a single-character separator. -/
def pySplitChar (sep : Char) (s : String) : List String :=
  (splitCharList sep s.toList).map (fun l => ⟨l⟩)

/-- POSIX `os.path.join` for two arguments, as in `posixpath.join`. -/
def os_path_join (a b : String) : String :=
  if b.toList.head? = some '/' then b
  else if a = "" ∨ a.toList.getLast? = some '/' then a ++ b
  else a ++ "/" ++ b

/-- The basename part of a path: the suffix after the last path separator
(`os.path.splitext` looks at `/` and, on Windows, `\`). -/
def baseNamePart (l : List Char) : List Char :=
  (l.reverse.takeWhile (fun c => c ≠ '/' ∧ c ≠ '\\')).reverse

/-- The extension of a path as computed by `os.path.splitext(path)[1]`:
the suffix of the basename starting at its last dot, except that a
basename whose part before that dot consists only of dots has no
extension. -/
def pyExt (s : String) : String :=
  let base := baseNamePart s.toList
  let revBase := base.reverse
  if revBase.any (fun c => c = '.') then
    let extRev := revBase.takeWhile (fun c => c ≠ '.') ++ ['.']
    let before := base.take (base.length - extRev.length)
    if before.any (fun c => c ≠ '.') then ⟨extRev.reverse⟩ else ""
  else ""

/-- Python `str.lower()` (ASCII behaviour suffices for extensions). -/
def pyLower (s : String) : String := ⟨s.toList.map Char.toLower⟩

/-- `AUDIO_EXTS` from the source, line 33. -/
def AUDIO_EXTS : List String :=
  [".aac", ".m4a", ".mp3", ".wav", ".flac", ".ogg", ".opus", ".wma", ".ac3"]

/-- `VIDEO_EXTS` from the source, line 34. -/
def VIDEO_EXTS : List String :=
  [".mp4", ".mkv", ".mov", ".webm", ".m4v", ".avi", ".ts"]

/-- `is_audio` from the source: lowered extension is in `AUDIO_EXTS`. -/
def is_audio (path : String) : Bool := decide (pyLower (pyExt path) ∈ AUDIO_EXTS)

/-- `is_video` from the source: lowered extension is in `VIDEO_EXTS`. -/
def is_video (path : String) : Bool := decide (pyLower (pyExt path) ∈ VIDEO_EXTS)

/-- The three classification results of the path classifier. -/
inductive MediaKind where
  | Audio
  | Video
  | Other
deriving DecidableEq

/-- The path classifier of the spec, realised in the source as the pair
`is_audio` / `is_video` (consulted in that order, e.g. in `on_drop_any`). -/
def classify (path : String) : MediaKind :=
  if is_audio path then .Audio else if is_video path then .Video else .Other

/-- A wall-clock reading, the fields `datetime.now()` exposes to `strftime`. -/
structure DateTime where
  year : Nat
  month : Nat
  day : Nat
  hour : Nat
  minute : Nat
  second : Nat
deriving DecidableEq

/-- Zero-padding to a given width, the behaviour of the `strftime`
field directives (`%m`, `%d`, `%H`, `%M`, `%S` pad to 2; `%Y` prints a
year `1000 ≤ y ≤ 9999` as its four digits, which `pad 4` also does). -/
def pad (w n : Nat) : String := ⟨List.replicate (w - (Nat.repr n).length) '0'⟩ ++ Nat.repr n

/-- `timestamp()` from the source: `datetime.now().strftime('%Y%m%d_%H%M%S')`,
as a function of the clock reading. -/
def timestamp (dt : DateTime) : String :=
  pad 4 dt.year ++ pad 2 dt.month ++ pad 2 dt.day ++ "_" ++
    pad 2 dt.hour ++ pad 2 dt.minute ++ pad 2 dt.second

/-- The ambient state `merge_now` and `which_ffmpeg` consult: filesystem
predicates, the clock, the `PATH` variable, the script directory and the
platform flag `os.name == 'nt'`. -/
structure Env where
  isFile : String → Bool
  isDir : String → Bool
  now : DateTime
  pathVar : String
  scriptDir : String
  osIsNt : Bool

/-- `which_ffmpeg` from the source: scan the `PATH` directories (each
stripped of double quotes, joined with the platform executable name),
then the script directory, then fall back to the bare name. -/
def which_ffmpeg (env : Env) : String :=
  let exe := if env.osIsNt then "ffmpeg.exe" else "ffmpeg"
  let dirs := pySplitChar (if env.osIsNt then ';' else ':') env.pathVar
  match dirs.find? (fun p => env.isFile (os_path_join (pyStripChars ['"'] p) exe)) with
  | some p => os_path_join (pyStripChars ['"'] p) exe
  | none =>
    let localCand := os_path_join env.scriptDir exe
    if env.isFile localCand then localCand else exe

/-- The platform executable name used by `which_ffmpeg`. -/
def ffmpegExeName (env : Env) : String := if env.osIsNt then "ffmpeg.exe" else "ffmpeg"

/-- The `PATH` entries scanned by `which_ffmpeg`, in order. -/
def pathDirs (env : Env) : List String :=
  pySplitChar (if env.osIsNt then ';' else ':') env.pathVar

/-- The candidate `which_ffmpeg` tests for one `PATH` entry. -/
def pathCandidate (env : Env) (p : String) : String :=
  os_path_join (pyStripChars ['"'] p) (ffmpegExeName env)

/-- The script-directory candidate `which_ffmpeg` tests after `PATH`. -/
def localCandidate (env : Env) : String :=
  os_path_join env.scriptDir (ffmpegExeName env)

/-- The observable behaviour of the `subprocess.run` call in `merge_now`:
either it raises `FileNotFoundError`, or it raises some other exception,
or the process completes with a return code, captured stdout and stderr
texts, and a post-run filesystem (the `os.path.exists` / `os.path.getsize`
views consulted right after the run). -/
inductive ProcResult where
  | fileNotFound
  | raised (msg : String)
  | completed (returncode : Int) (stdoutText stderrText : String)
      (existsAfter : String → Bool) (sizeAfter : String → Nat)

/-- The outcome of one merge attempt: the tagged result of `merge_now`
(Success message box, validation error box, ffmpeg-not-found box,
merge-failure box, or the generic exception box). -/
inductive MergeOutcome where
  | Success (outputPath : String)
  | ValidationError (reason : String)
  | NotFound (reason : String)
  | ProcessError (reason : String)
  | OtherError (reason : String)
deriving DecidableEq

/-- The mutable entry strings of the form: `audio_var`, `video_var`,
`outdir_var`. -/
structure AppState where
  audio_var : String
  video_var : String
  outdir_var : String
deriving DecidableEq

/-- The validation-failure messages of `merge_now`, in check order. -/
def msgBadAudio : String := "请选择有效的音频文件。"

/-- Validation message of the second check of `merge_now`. -/
def msgBadVideo : String := "请选择有效的视频文件。"

/-- Validation message of the third check of `merge_now`. -/
def msgNoOutdir : String := "请选择输出目录。"

/-- Validation message of the fourth check of `merge_now`. -/
def msgOutdirMissing : String := "输出目录不存在。"

/-- The message of the `FileNotFoundError` branch of `merge_now`. -/
def msgFfmpegNotFound : String :=
  "未找到 ffmpeg 可执行文件。\n请将 ffmpeg.exe 放在本脚本同目录，或添加到 PATH。"

/-- The command list built by `merge_now` (source line 258). -/
def merge_cmd (ffmpeg audio video outfile : String) : List String :=
  [ffmpeg, "-hide_banner", "-loglevel", "error", "-y", "-nostdin",
   "-i", audio, "-i", video, "-acodec", "copy", "-vcodec", "copy", outfile]

/-- The error text computed on a failed run: `proc.stderr.strip() or
proc.stdout.strip() or 'Unknown error.'`. -/
def failReason (stdoutText stderrText : String) : String :=
  if pyStrip stderrText = "" then
    (if pyStrip stdoutText = "" then "Unknown error." else pyStrip stdoutText)
  else pyStrip stderrText

/-- The post-launch part of `merge_now` (source lines 265-290): classify
the subprocess result and, on success, clear the audio and video entries. -/
def classifyProc (outfile : String) (st : AppState) (r : ProcResult) :
    MergeOutcome × AppState :=
  match r with
  | .fileNotFound => (.NotFound msgFfmpegNotFound, st)
  | .raised m => (.OtherError m, st)
  | .completed rc outText errText existsAfter sizeAfter =>
    if rc ≠ 0 ∨ existsAfter outfile = false ∨ sizeAfter outfile = 0 then
      (.ProcessError (failReason outText errText), st)
    else
      (.Success outfile, { st with audio_var := "", video_var := "" })

/-- `merge_now` from the source (lines 237-290): strip the three entry
strings, run the four validation checks in order, resolve ffmpeg, compute
the timestamped output path, build the command, run it and classify. -/
def merge_now (st : AppState) (env : Env) (run : List String → ProcResult) :
    MergeOutcome × AppState :=
  let audio := strip_quot_space st.audio_var
  let video := strip_quot_space st.video_var
  let outdir := strip_quot_space st.outdir_var
  if audio = "" ∨ env.isFile audio = false then (.ValidationError msgBadAudio, st)
  else if video = "" ∨ env.isFile video = false then (.ValidationError msgBadVideo, st)
  else if outdir = "" then (.ValidationError msgNoOutdir, st)
  else if env.isDir outdir = false then (.ValidationError msgOutdirMissing, st)
  else
    let ffmpeg := which_ffmpeg env
    let outfile := os_path_join outdir (timestamp env.now ++ ".mp4")
    classifyProc outfile st (run (merge_cmd ffmpeg audio video outfile))

/-- A JSON value as returned by `json.load`, restricted to the shapes the
program distinguishes: strings, objects, and everything else. -/
inductive PyVal where
  | str (s : String)
  | dict (d : List (String × PyVal))
  | other

/-- The state of the settings file as seen through `open` + `json.load`:
absent, unreadable (I/O error on open or read), present but not valid
JSON, or parsed to a value. -/
inductive ConfigFile where
  | missing
  | ioError
  | badJson
  | parsed (v : PyVal)

/-- The body of the `try` block of `load_settings`: opening, reading and
parsing the file either raises or yields the parsed value. -/
def readParseConfig (fs : ConfigFile) : Except String PyVal :=
  match fs with
  | .missing => .error "FileNotFoundError"
  | .ioError => .error "OSError"
  | .badJson => .error "JSONDecodeError"
  | .parsed v => .ok v

/-- `load_settings` from the source (lines 293-300): if the file exists,
read and parse it, catching every exception with `{}`; otherwise `{}`. -/
def load_settings (fs : ConfigFile) : PyVal :=
  match fs with
  | .missing => .dict []
  | fs2 =>
    match readParseConfig fs2 with
    | .ok v => v
    | .error _ => .dict []

/-- Python dict assignment `d[k] = v`: replace in place, else append. -/
def setKey : List (String × PyVal) → String → PyVal → List (String × PyVal)
  | [], k, v => [(k, v)]
  | (k1, v1) :: rest, k, v =>
    if k1 = k then (k, v) :: rest else (k1, v1) :: setKey rest k v

/-- The `open` + `json.dump` step of `save_outdir`: if the write goes
through, the file now parses to the dumped document; if it fails, it
raises (and the caller supplies the file state the failed write left). -/
def dumpConfig (writeOk : Bool) (doc : PyVal) : Except String ConfigFile :=
  if writeOk then .ok (.parsed doc) else .error "OSError"

/-- The coercion `self.settings if isinstance(self.settings, dict) else {}`. -/
def dictOrEmpty : PyVal → List (String × PyVal)
  | .dict d => d
  | _ => []

/-- `save_outdir` from the source (lines 302-310): coerce the in-memory
settings to a dict, set `outdir`, keep the updated dict as the new
in-memory settings, then attempt the dump with every exception swallowed. -/
def save_outdir (cur : PyVal) (path : String) (writeOk : Bool)
    (fsOnFail : ConfigFile) : PyVal × ConfigFile :=
  let settings2 := setKey (dictOrEmpty cur) "outdir" (.str path)
  match dumpConfig writeOk (.dict settings2) with
  | .ok fs2 => (.dict settings2, fs2)
  | .error _ => (.dict settings2, fsOnFail)

/-- The output path computed by a merge attempt from state `st` in
environment `env`: `os.path.join(outdir, timestamp() + '.mp4')`. -/
def mergeOutfile (st : AppState) (env : Env) : String :=
  os_path_join (strip_quot_space st.outdir_var) (timestamp env.now ++ ".mp4")

/-- Test environment: two media files, one output directory, an empty
`PATH`, a clock frozen at 2024-03-07 09:05:03, POSIX platform. -/
def envA : Env :=
  { isFile := fun s => s == "a.mp3" || s == "v.mp4"
    isDir := fun s => s == "/out"
    now := ⟨2024, 3, 7, 9, 5, 3⟩
    pathVar := ""
    scriptDir := "/app"
    osIsNt := false }

/-- Test state: both media files selected, output directory set. -/
def stA : AppState := ⟨"a.mp3", "v.mp4", "/out"⟩

/-- Test state with the audio path wrapped in quotes and the video path
padded with spaces, as drag-and-drop or paste can produce. -/
def stQuoted : AppState := ⟨"\"a.mp3\"", " v.mp4 ", "\"/out\""⟩

/-- A subprocess behaviour that exits 0 and leaves a non-empty output. -/
def runGood : List String → ProcResult :=
  fun _ => .completed 0 "" "" (fun _ => true) (fun _ => 1)

/-- A subprocess behaviour that exits 1 with a newline-terminated error
text on stderr and no output file. -/
def runBoom : List String → ProcResult :=
  fun _ => .completed 1 "" "boom\n" (fun _ => false) (fun _ => 0)

/-- A subprocess start that raises `FileNotFoundError`. -/
def runNF : List String → ProcResult := fun _ => .fileNotFound

/-- Test environment for the locator: the ffmpeg binary sits in the
second `PATH` entry. -/
def envPathHit : Env :=
  { isFile := fun s => s == "/usr/bin/ffmpeg"
    isDir := fun _ => false
    now := ⟨2024, 1, 1, 0, 0, 0⟩
    pathVar := "/opt:/usr/bin"
    scriptDir := "/app"
    osIsNt := false }

/-- Test environment for the locator: Windows platform, no `PATH` hit,
`ffmpeg.exe` in the script directory. -/
def envLocalHit : Env :=
  { isFile := fun s => s == "/app/ffmpeg.exe"
    isDir := fun _ => false
    now := ⟨2024, 1, 1, 0, 0, 0⟩
    pathVar := "C:\\x;D:\\y"
    scriptDir := "/app"
    osIsNt := true }

/-- Test environment for the locator: nothing found anywhere. -/
def envMiss : Env :=
  { isFile := fun _ => false
    isDir := fun _ => false
    now := ⟨2024, 1, 1, 0, 0, 0⟩
    pathVar := ""
    scriptDir := "/app"
    osIsNt := false }

/-! ## Helper lemmas -/

/-- The decimal digit characters produced by `Nat.digitChar` below 10. -/
lemma digitChar_isDigit : ∀ m, m < 10 → (Nat.digitChar m).isDigit = true := by decide

/-- Every character `Nat.toDigitsCore` with base 10 adds is a digit. -/
lemma toDigitsCore_all_digits :
    ∀ (f n : Nat) (ds : List Char), (∀ c ∈ ds, c.isDigit = true) →
      ∀ c ∈ Nat.toDigitsCore 10 f n ds, c.isDigit = true := by
  intro f
  induction f with
  | zero => intro n ds h c hc; exact h c hc
  | succ f ih =>
    intro n ds h c hc
    simp only [Nat.toDigitsCore] at hc
    by_cases h0 : n / 10 = 0
    · rw [if_pos h0] at hc
      rcases List.mem_cons.1 hc with rfl | hmem
      · exact digitChar_isDigit _ (Nat.mod_lt _ (by norm_num))
      · exact h c hmem
    · rw [if_neg h0] at hc
      refine ih (n / 10) _ ?_ c hc
      intro c2 hc2
      rcases List.mem_cons.1 hc2 with rfl | hmem
      · exact digitChar_isDigit _ (Nat.mod_lt _ (by norm_num))
      · exact h c2 hmem

/-- The decimal representation of a natural number is all digits. -/
lemma repr_toList_all_digits (n : Nat) : (Nat.repr n).toList.all Char.isDigit = true := by
  rw [List.all_eq_true]
  intro c hc
  exact toDigitsCore_all_digits (n + 1) n [] (by simp) c hc

/-- Zero-padding to width `w` of a number below `10 ^ w` yields exactly
`w` characters, all decimal digits. -/
lemma pad_shape (w n : Nat) (hw : 0 < w) (h : n < 10 ^ w) :
    (pad w n).length = w ∧ (pad w n).toList.all Char.isDigit = true := by
  have hlen : (Nat.repr n).length ≤ w := Nat.repr_length n w hw h
  have htl : (pad w n).toList =
      List.replicate (w - (Nat.repr n).length) '0' ++ (Nat.repr n).toList := rfl
  constructor
  · have : (pad w n).length = (pad w n).toList.length := rfl
    rw [this, htl, List.length_append, List.length_replicate]
    have : (Nat.repr n).toList.length = (Nat.repr n).length := rfl
    rw [this]
    omega
  · rw [htl, List.all_append, repr_toList_all_digits]
    have hrep : (List.replicate (w - (Nat.repr n).length) '0').all Char.isDigit = true := by
      rw [List.all_eq_true]
      intro c hc
      rw [List.eq_of_mem_replicate hc]
      decide
    rw [hrep]
    rfl

/-- Strings append by appending their character lists. -/
lemma toList_append (a b : String) : (a ++ b).toList = a.toList ++ b.toList := rfl

/-- The extension sets of the source are disjoint. -/
lemma video_ext_not_audio : ∀ s : String, s ∈ VIDEO_EXTS → s ∉ AUDIO_EXTS := by
  intro s h
  fin_cases h <;> decide

/-- The first component of `classifyProc` does not depend on the state. -/
lemma classifyProc_fst (o : String) (st st2 : AppState) (r : ProcResult) :
    (classifyProc o st r).1 = (classifyProc o st2 r).1 := by
  cases r with
  | fileNotFound => rfl
  | raised m => rfl
  | completed rc outText errText existsAfter sizeAfter =>
    simp only [classifyProc]
    split <;> rfl

/-- State effect of `classifyProc`: on success the audio and video entries
are cleared and the output directory kept; otherwise the state is kept. -/
lemma classifyProc_frame (o : String) (st : AppState) (r : ProcResult) :
    ((classifyProc o st r).2.outdir_var = st.outdir_var) ∧
    (∀ p, (classifyProc o st r).1 = .Success p →
      (classifyProc o st r).2 = { st with audio_var := "", video_var := "" }) ∧
    ((∀ p, (classifyProc o st r).1 ≠ .Success p) → (classifyProc o st r).2 = st) := by
  cases r with
  | fileNotFound => exact ⟨rfl, ⟨fun p h => MergeOutcome.noConfusion h, fun _ => rfl⟩⟩
  | raised m => exact ⟨rfl, ⟨fun p h => MergeOutcome.noConfusion h, fun _ => rfl⟩⟩
  | completed rc outText errText existsAfter sizeAfter =>
    simp only [classifyProc]
    by_cases hc : rc ≠ 0 ∨ existsAfter o = false ∨ sizeAfter o = 0
    · rw [if_pos hc]
      exact ⟨rfl, ⟨fun p h => MergeOutcome.noConfusion h, fun _ => rfl⟩⟩
    · rw [if_neg hc]
      exact ⟨rfl, ⟨fun p _ => rfl, fun h => absurd rfl (h o)⟩⟩

/-- When the four validation checks pass, `merge_now` runs the built
command and classifies its result. -/
lemma merge_now_valid (st : AppState) (env : Env) (run : List String → ProcResult)
    (ha : strip_quot_space st.audio_var ≠ "")
    (ha2 : env.isFile (strip_quot_space st.audio_var) = true)
    (hv : strip_quot_space st.video_var ≠ "")
    (hv2 : env.isFile (strip_quot_space st.video_var) = true)
    (ho : strip_quot_space st.outdir_var ≠ "")
    (ho2 : env.isDir (strip_quot_space st.outdir_var) = true) :
    merge_now st env run =
      classifyProc (mergeOutfile st env) st
        (run (merge_cmd (which_ffmpeg env) (strip_quot_space st.audio_var)
          (strip_quot_space st.video_var) (mergeOutfile st env))) := by
  simp only [merge_now, mergeOutfile]
  rw [if_neg (by simp [ha, ha2]), if_neg (by simp [hv, hv2]), if_neg ho,
    if_neg (by simp [ho2])]

/-- Appending to a list whose members all fail the predicate shifts
`find?` to the second list. -/
lemma find?_append_none {α : Type} (p : α → Bool) :
    ∀ l1 l2 : List α, (∀ a ∈ l1, p a = false) → (l1 ++ l2).find? p = l2.find? p := by
  intro l1
  induction l1 with
  | nil => intro l2 _; rfl
  | cons a t ih =>
    intro l2 h
    have ha : p a = false := h a (List.mem_cons_self a t)
    rw [List.cons_append, List.find?_cons_of_neg _ (by simp [ha])]
    exact ih l2 (fun x hx => h x (List.mem_cons_of_mem a hx))

/-- Looking up the key just set by `setKey` finds the new value. -/
lemma find?_setKey (d : List (String × PyVal)) (k : String) (v : PyVal) :
    (setKey d k v).find? (fun kv => kv.1 == k) = some (k, v) := by
  induction d with
  | nil =>
    simp only [setKey]
    exact List.find?_cons_of_pos _ (by simp)
  | cons hd t ih =>
    obtain ⟨k1, v1⟩ := hd
    simp only [setKey]
    by_cases h : k1 = k
    · rw [if_pos h]
      exact List.find?_cons_of_pos _ (by simp)
    · rw [if_neg h, List.find?_cons_of_neg _ (by simp [h])]
      exact ih

/-- C5: the path classifier is total and pure; a path whose
case-insensitive extension is in the audio set classifies as Audio, one
in the video set as Video, any other as Other, and the two sets are
disjoint, so no path is both audio and video. -/
theorem classify_spec (p : String) :
    (pyLower (pyExt p) ∈ AUDIO_EXTS → classify p = .Audio) ∧
    (pyLower (pyExt p) ∈ VIDEO_EXTS → classify p = .Video) ∧
    (pyLower (pyExt p) ∉ AUDIO_EXTS → pyLower (pyExt p) ∉ VIDEO_EXTS →
      classify p = .Other) ∧
    ¬(is_audio p = true ∧ is_video p = true) := by
  refine ⟨fun h => ?_, fun h => ?_, fun h1 h2 => ?_, fun hb => ?_⟩
  · simp [classify, is_audio, h]
  · have hna := video_ext_not_audio _ h
    simp [classify, is_audio, is_video, h, hna]
  · simp [classify, is_audio, is_video, h1, h2]
  · exact video_ext_not_audio _ (by simpa [is_video] using hb.2)
      (by simpa [is_audio] using hb.1)

/-- Witness for C5 at the three kinds of concrete path. -/
theorem classify_spec_witness :
    (pyLower (pyExt "song.MP3") ∈ AUDIO_EXTS ∧ classify "song.MP3" = .Audio) ∧
    (pyLower (pyExt "clip.MkV") ∈ VIDEO_EXTS ∧ classify "clip.MkV" = .Video) ∧
    (pyLower (pyExt "notes.txt") ∉ AUDIO_EXTS ∧ pyLower (pyExt "notes.txt") ∉ VIDEO_EXTS ∧
      classify "notes.txt" = .Other) :=
  ⟨⟨by decide, (classify_spec "song.MP3").1 (by decide)⟩,
   ⟨by decide, (classify_spec "clip.MkV").2.1 (by decide)⟩,
   ⟨by decide, by decide, (classify_spec "notes.txt").2.2.1 (by decide) (by decide)⟩⟩

/-- C7: saving a settings record with output directory `x` and loading
the settings back yields a record whose `outdir` key equals `x`, for
every path string `x` and every prior in-memory record. -/
theorem settings_roundtrip (cur : PyVal) (x : String) (fsOnFail : ConfigFile) :
    ∃ d, load_settings (save_outdir cur x true fsOnFail).2 = .dict d ∧
      d.find? (fun kv => kv.1 == "outdir") = some ("outdir", .str x) :=
  ⟨setKey (dictOrEmpty cur) "outdir" (.str x), rfl, find?_setKey _ _ _⟩

/-- C8: settings persistence is fail-soft. `load_settings` returns the
empty record when the file is missing, unreadable or not parseable as
JSON, and `save_outdir` returns normally even when the write fails: the
file is whatever the failed write left, and the in-memory record is the
same one a successful save would have produced. -/
theorem settings_fail_soft :
    load_settings .missing = .dict [] ∧
    load_settings .ioError = .dict [] ∧
    load_settings .badJson = .dict [] ∧
    (∀ cur path fsOnFail,
      (save_outdir cur path false fsOnFail).2 = fsOnFail ∧
      (save_outdir cur path false fsOnFail).1 = (save_outdir cur path true fsOnFail).1) :=
  ⟨rfl, rfl, rfl, fun _ _ _ => ⟨rfl, rfl⟩⟩

/-- First validation branch of `merge_now`. -/
lemma merge_now_inv1 (st : AppState) (env : Env) (run : List String → ProcResult)
    (h : strip_quot_space st.audio_var = "" ∨
      env.isFile (strip_quot_space st.audio_var) = false) :
    merge_now st env run = (.ValidationError msgBadAudio, st) := by
  simp only [merge_now]
  rw [if_pos h]

/-- Second validation branch of `merge_now`. -/
lemma merge_now_inv2 (st : AppState) (env : Env) (run : List String → ProcResult)
    (ha : strip_quot_space st.audio_var ≠ "")
    (ha2 : env.isFile (strip_quot_space st.audio_var) = true)
    (h : strip_quot_space st.video_var = "" ∨
      env.isFile (strip_quot_space st.video_var) = false) :
    merge_now st env run = (.ValidationError msgBadVideo, st) := by
  simp only [merge_now]
  rw [if_neg (by simp [ha, ha2]), if_pos h]

/-- Third validation branch of `merge_now`. -/
lemma merge_now_inv3 (st : AppState) (env : Env) (run : List String → ProcResult)
    (ha : strip_quot_space st.audio_var ≠ "")
    (ha2 : env.isFile (strip_quot_space st.audio_var) = true)
    (hv : strip_quot_space st.video_var ≠ "")
    (hv2 : env.isFile (strip_quot_space st.video_var) = true)
    (h : strip_quot_space st.outdir_var = "") :
    merge_now st env run = (.ValidationError msgNoOutdir, st) := by
  simp only [merge_now]
  rw [if_neg (by simp [ha, ha2]), if_neg (by simp [hv, hv2]), if_pos h]

/-- Fourth validation branch of `merge_now`. -/
lemma merge_now_inv4 (st : AppState) (env : Env) (run : List String → ProcResult)
    (ha : strip_quot_space st.audio_var ≠ "")
    (ha2 : env.isFile (strip_quot_space st.audio_var) = true)
    (hv : strip_quot_space st.video_var ≠ "")
    (hv2 : env.isFile (strip_quot_space st.video_var) = true)
    (ho : strip_quot_space st.outdir_var ≠ "")
    (h : env.isDir (strip_quot_space st.outdir_var) = false) :
    merge_now st env run = (.ValidationError msgOutdirMissing, st) := by
  simp only [merge_now]
  rw [if_neg (by simp [ha, ha2]), if_neg (by simp [hv, hv2]), if_neg ho, if_pos h]

/-- C2: `merge_now` checks its four preconditions in order — audio entry
non-empty and a regular file, video entry non-empty and a regular file,
output directory non-empty, output directory an existing directory — and
an input violating one of them yields the ValidationError of the first
failing check, independent of the later checks and of the subprocess
behaviour `run` (so no process is ever started). -/
theorem merge_validation_order (st : AppState) (env : Env)
    (run : List String → ProcResult) :
    (strip_quot_space st.audio_var = "" ∨
        env.isFile (strip_quot_space st.audio_var) = false →
      merge_now st env run = (.ValidationError msgBadAudio, st)) ∧
    (strip_quot_space st.audio_var ≠ "" →
      env.isFile (strip_quot_space st.audio_var) = true →
      (strip_quot_space st.video_var = "" ∨
        env.isFile (strip_quot_space st.video_var) = false) →
      merge_now st env run = (.ValidationError msgBadVideo, st)) ∧
    (strip_quot_space st.audio_var ≠ "" →
      env.isFile (strip_quot_space st.audio_var) = true →
      strip_quot_space st.video_var ≠ "" →
      env.isFile (strip_quot_space st.video_var) = true →
      strip_quot_space st.outdir_var = "" →
      merge_now st env run = (.ValidationError msgNoOutdir, st)) ∧
    (strip_quot_space st.audio_var ≠ "" →
      env.isFile (strip_quot_space st.audio_var) = true →
      strip_quot_space st.video_var ≠ "" →
      env.isFile (strip_quot_space st.video_var) = true →
      strip_quot_space st.outdir_var ≠ "" →
      env.isDir (strip_quot_space st.outdir_var) = false →
      merge_now st env run = (.ValidationError msgOutdirMissing, st)) :=
  ⟨fun h => merge_now_inv1 st env run h,
   fun ha ha2 h => merge_now_inv2 st env run ha ha2 h,
   fun ha ha2 hv hv2 h => merge_now_inv3 st env run ha ha2 hv hv2 h,
   fun ha ha2 hv hv2 ho h => merge_now_inv4 st env run ha ha2 hv hv2 ho h⟩

/-- Witness for C2: each of the four checks fails first on a concrete
state, with a subprocess behaviour that would succeed if it were ever
consulted. -/
theorem merge_validation_order_witness :
    merge_now ⟨"", "v.mp4", "/out"⟩ envA runGood =
      (.ValidationError msgBadAudio, ⟨"", "v.mp4", "/out"⟩) ∧
    merge_now ⟨"a.mp3", "nope.mp4", "/out"⟩ envA runGood =
      (.ValidationError msgBadVideo, ⟨"a.mp3", "nope.mp4", "/out"⟩) ∧
    merge_now ⟨"a.mp3", "v.mp4", ""⟩ envA runGood =
      (.ValidationError msgNoOutdir, ⟨"a.mp3", "v.mp4", ""⟩) ∧
    merge_now ⟨"a.mp3", "v.mp4", "/nope"⟩ envA runGood =
      (.ValidationError msgOutdirMissing, ⟨"a.mp3", "v.mp4", "/nope"⟩) :=
  ⟨(merge_validation_order ⟨"", "v.mp4", "/out"⟩ envA runGood).1 (by decide),
   (merge_validation_order ⟨"a.mp3", "nope.mp4", "/out"⟩ envA runGood).2.1
     (by decide) (by decide) (by decide),
   (merge_validation_order ⟨"a.mp3", "v.mp4", ""⟩ envA runGood).2.2.1
     (by decide) (by decide) (by decide) (by decide) (by decide),
   (merge_validation_order ⟨"a.mp3", "v.mp4", "/nope"⟩ envA runGood).2.2.2
     (by decide) (by decide) (by decide) (by decide) (by decide) (by decide)⟩

/-- C9: after a merge attempt that ends in Success the audio and video
selections are cleared and the output directory is unchanged; after any
other outcome the whole state is unchanged (and the output directory is
never modified in any case). -/
theorem merge_state_frame (st : AppState) (env : Env)
    (run : List String → ProcResult) :
    ((merge_now st env run).2.outdir_var = st.outdir_var) ∧
    (∀ p, (merge_now st env run).1 = .Success p →
      (merge_now st env run).2 = { st with audio_var := "", video_var := "" }) ∧
    ((∀ p, (merge_now st env run).1 ≠ .Success p) → (merge_now st env run).2 = st) := by
  by_cases h1 : strip_quot_space st.audio_var = "" ∨
      env.isFile (strip_quot_space st.audio_var) = false
  · rw [merge_now_inv1 st env run h1]
    exact ⟨rfl, ⟨fun p h => MergeOutcome.noConfusion h, fun _ => rfl⟩⟩
  · have ha : strip_quot_space st.audio_var ≠ "" := fun h => h1 (Or.inl h)
    have ha2 : env.isFile (strip_quot_space st.audio_var) = true := by
      rcases Bool.eq_false_or_eq_true (env.isFile (strip_quot_space st.audio_var)) with
        h | h
      · exact h
      · exact absurd (Or.inr h) h1
    by_cases h2 : strip_quot_space st.video_var = "" ∨
        env.isFile (strip_quot_space st.video_var) = false
    · rw [merge_now_inv2 st env run ha ha2 h2]
      exact ⟨rfl, ⟨fun p h => MergeOutcome.noConfusion h, fun _ => rfl⟩⟩
    · have hv : strip_quot_space st.video_var ≠ "" := fun h => h2 (Or.inl h)
      have hv2 : env.isFile (strip_quot_space st.video_var) = true := by
        rcases Bool.eq_false_or_eq_true (env.isFile (strip_quot_space st.video_var)) with
          h | h
        · exact h
        · exact absurd (Or.inr h) h2
      by_cases h3 : strip_quot_space st.outdir_var = ""
      · rw [merge_now_inv3 st env run ha ha2 hv hv2 h3]
        exact ⟨rfl, ⟨fun p h => MergeOutcome.noConfusion h, fun _ => rfl⟩⟩
      · by_cases h4 : env.isDir (strip_quot_space st.outdir_var) = false
        · rw [merge_now_inv4 st env run ha ha2 hv hv2 h3 h4]
          exact ⟨rfl, ⟨fun p h => MergeOutcome.noConfusion h, fun _ => rfl⟩⟩
        · have ho2 : env.isDir (strip_quot_space st.outdir_var) = true := by
            rcases Bool.eq_false_or_eq_true (env.isDir (strip_quot_space st.outdir_var))
              with h | h
            · exact h
            · exact absurd h h4
          rw [merge_now_valid st env run ha ha2 hv hv2 h3 ho2]
          exact classifyProc_frame _ _ _

/-- Witness for C9: one successful attempt (entries cleared, output
directory kept) and one failed attempt (state untouched). -/
theorem merge_state_frame_witness :
    (merge_now stA envA runGood).2 = ⟨"", "", "/out"⟩ ∧
    (merge_now stA envA runNF).2 = stA := by
  constructor
  · have h := (merge_state_frame stA envA runGood).2.1 "/out/20240307_090503.mp4"
      (by decide)
    exact h.trans (by decide)
  · exact (merge_state_frame stA envA runNF).2.2 (fun p hp => by
      rw [show (merge_now stA envA runNF).1 = .NotFound msgFfmpegNotFound by decide] at hp
      exact MergeOutcome.noConfusion hp)

/-- C10: before any validation `merge_now` strips leading and trailing
double quotes and spaces from all three entry strings, and both the
checks and the built command use only the stripped values: two states
with the same stripped entries produce the same outcome, and a quoted
path to an existing file still validates and merges successfully. -/
theorem merge_strips_quotes :
    (∀ st st2 env (run : List String → ProcResult),
      strip_quot_space st.audio_var = strip_quot_space st2.audio_var →
      strip_quot_space st.video_var = strip_quot_space st2.video_var →
      strip_quot_space st.outdir_var = strip_quot_space st2.outdir_var →
      (merge_now st env run).1 = (merge_now st2 env run).1) ∧
    (merge_now stQuoted envA runGood).1 = .Success "/out/20240307_090503.mp4" := by
  constructor
  · intro st st2 env run h1 h2 h3
    by_cases c1 : strip_quot_space st2.audio_var = "" ∨
        env.isFile (strip_quot_space st2.audio_var) = false
    · simp only [merge_now, h1, h2, h3]
      rw [if_pos c1, if_pos c1]
    · by_cases c2 : strip_quot_space st2.video_var = "" ∨
          env.isFile (strip_quot_space st2.video_var) = false
      · simp only [merge_now, h1, h2, h3]
        rw [if_neg c1, if_neg c1, if_pos c2, if_pos c2]
      · by_cases c3 : strip_quot_space st2.outdir_var = ""
        · simp only [merge_now, h1, h2, h3]
          rw [if_neg c1, if_neg c1, if_neg c2, if_neg c2, if_pos c3, if_pos c3]
        · by_cases c4 : env.isDir (strip_quot_space st2.outdir_var) = false
          · simp only [merge_now, h1, h2, h3]
            rw [if_neg c1, if_neg c1, if_neg c2, if_neg c2, if_neg c3, if_neg c3,
              if_pos c4, if_pos c4]
          · simp only [merge_now, h1, h2, h3]
            rw [if_neg c1, if_neg c1, if_neg c2, if_neg c2, if_neg c3, if_neg c3,
              if_neg c4, if_neg c4]
            exact classifyProc_fst _ _ _ _
  · decide

/-- Witness for C10: the quoted state and the clean state agree on a
concrete failing run. -/
theorem merge_strips_quotes_witness :
    (merge_now stQuoted envA runNF).1 = (merge_now stA envA runNF).1 :=
  merge_strips_quotes.1 stQuoted stA envA runNF (by decide) (by decide) (by decide)

/-- Counterexample to C1 as stated: with captured standard-error text
`"boom\n"` (non-empty), the claim predicts the reason `"boom\n"`, but the
code strips whitespace first and reports `"boom"`. -/
theorem merge_reason_counterexample :
    (merge_now stA envA runBoom).1 = .ProcessError "boom" ∧
    "boom\n" ≠ "" ∧ "boom" ≠ "boom\n" :=
  ⟨by decide, by decide, by decide⟩

/-- C1 (amended): for a merge attempt past validation, a start failure
(`FileNotFoundError`) yields NotFound; a completed process yields Success
exactly when the exit status is zero, the output file exists and its size
is non-zero; otherwise ProcessError whose reason is the
whitespace-stripped captured standard-error text if non-empty, else the
whitespace-stripped captured standard-output text if non-empty, else the
generic unknown-error string (`failReason`). -/
theorem merge_outcome_classification (st : AppState) (env : Env)
    (run : List String → ProcResult)
    (ha : strip_quot_space st.audio_var ≠ "")
    (ha2 : env.isFile (strip_quot_space st.audio_var) = true)
    (hv : strip_quot_space st.video_var ≠ "")
    (hv2 : env.isFile (strip_quot_space st.video_var) = true)
    (ho : strip_quot_space st.outdir_var ≠ "")
    (ho2 : env.isDir (strip_quot_space st.outdir_var) = true) :
    (run (merge_cmd (which_ffmpeg env) (strip_quot_space st.audio_var)
        (strip_quot_space st.video_var) (mergeOutfile st env)) = .fileNotFound →
      (merge_now st env run).1 = .NotFound msgFfmpegNotFound) ∧
    (∀ (rc : Int) (outText errText : String) (existsAfter : String → Bool)
        (sizeAfter : String → Nat),
      run (merge_cmd (which_ffmpeg env) (strip_quot_space st.audio_var)
          (strip_quot_space st.video_var) (mergeOutfile st env)) =
        .completed rc outText errText existsAfter sizeAfter →
      ((merge_now st env run).1 = .Success (mergeOutfile st env) ↔
        (rc = 0 ∧ existsAfter (mergeOutfile st env) = true ∧
          sizeAfter (mergeOutfile st env) ≠ 0)) ∧
      (¬(rc = 0 ∧ existsAfter (mergeOutfile st env) = true ∧
          sizeAfter (mergeOutfile st env) ≠ 0) →
        (merge_now st env run).1 = .ProcessError (failReason outText errText))) := by
  have hm := merge_now_valid st env run ha ha2 hv hv2 ho ho2
  constructor
  · intro hr
    rw [hm, hr]
    rfl
  · intro rc outText errText existsAfter sizeAfter hr
    rw [hm, hr]
    simp only [classifyProc]
    by_cases hc : rc ≠ 0 ∨ existsAfter (mergeOutfile st env) = false ∨
        sizeAfter (mergeOutfile st env) = 0
    · rw [if_pos hc]
      refine ⟨⟨fun h => MergeOutcome.noConfusion h, fun h => ?_⟩, fun _ => rfl⟩
      rcases hc with hcc | hcc | hcc
      · exact absurd h.1 hcc
      · rw [h.2.1] at hcc
        exact Bool.noConfusion hcc
      · exact absurd hcc h.2.2
    · rw [if_neg hc]
      push_neg at hc
      obtain ⟨hc1, hc2, hc3⟩ := hc
      have hc2t : existsAfter (mergeOutfile st env) = true := by
        rcases Bool.eq_false_or_eq_true (existsAfter (mergeOutfile st env)) with h | h
        · exact h
        · exact absurd h hc2
      exact ⟨⟨fun _ => ⟨hc1, hc2t, hc3⟩, fun _ => rfl⟩,
        fun h => absurd ⟨hc1, hc2t, hc3⟩ h⟩

/-- Witness for C1 at a start failure and at a clean success. -/
theorem merge_outcome_classification_witness :
    (merge_now stA envA runNF).1 = .NotFound msgFfmpegNotFound ∧
    (merge_now stA envA runGood).1 = .Success (mergeOutfile stA envA) := by
  constructor
  · exact (merge_outcome_classification stA envA runNF (by decide) (by decide)
      (by decide) (by decide) (by decide) (by decide)).1 rfl
  · exact ((merge_outcome_classification stA envA runGood (by decide) (by decide)
      (by decide) (by decide) (by decide) (by decide)).2 0 "" ""
      (fun _ => true) (fun _ => 1) rfl).1.mpr ⟨rfl, rfl, by decide⟩

/-- C3: a merge attempt past validation that succeeds reports the output
path `os.path.join(outdir, timestamp + ".mp4")`; the timestamp of a
realistic clock reading decomposes as a 4-digit year, 2-digit month, day,
hour, minute and second, all decimal digits, with a single underscore
between date and time; and the clock reading 2024-03-07 09:05:03 gives
exactly the filename `20240307_090503.mp4`. -/
theorem merge_output_path_format :
    (∀ (st : AppState) (env : Env) (run : List String → ProcResult)
        (rc : Int) (outText errText : String) (existsAfter : String → Bool)
        (sizeAfter : String → Nat),
      strip_quot_space st.audio_var ≠ "" →
      env.isFile (strip_quot_space st.audio_var) = true →
      strip_quot_space st.video_var ≠ "" →
      env.isFile (strip_quot_space st.video_var) = true →
      strip_quot_space st.outdir_var ≠ "" →
      env.isDir (strip_quot_space st.outdir_var) = true →
      run (merge_cmd (which_ffmpeg env) (strip_quot_space st.audio_var)
          (strip_quot_space st.video_var)
          (os_path_join (strip_quot_space st.outdir_var)
            (timestamp env.now ++ ".mp4"))) =
        .completed rc outText errText existsAfter sizeAfter →
      rc = 0 →
      existsAfter (os_path_join (strip_quot_space st.outdir_var)
        (timestamp env.now ++ ".mp4")) = true →
      sizeAfter (os_path_join (strip_quot_space st.outdir_var)
        (timestamp env.now ++ ".mp4")) ≠ 0 →
      (merge_now st env run).1 =
        .Success (os_path_join (strip_quot_space st.outdir_var)
          (timestamp env.now ++ ".mp4"))) ∧
    (∀ dt : DateTime, 1000 ≤ dt.year → dt.year < 10000 → dt.month < 100 →
      dt.day < 100 → dt.hour < 100 → dt.minute < 100 → dt.second < 100 →
      ∃ y mo d h mi s : String,
        timestamp dt = y ++ mo ++ d ++ "_" ++ h ++ mi ++ s ∧
        y.length = 4 ∧ mo.length = 2 ∧ d.length = 2 ∧ h.length = 2 ∧
        mi.length = 2 ∧ s.length = 2 ∧
        (y ++ mo ++ d ++ h ++ mi ++ s).toList.all Char.isDigit = true) ∧
    timestamp ⟨2024, 3, 7, 9, 5, 3⟩ ++ ".mp4" = "20240307_090503.mp4" := by
  refine ⟨?_, ?_, by decide⟩
  · intro st env run rc outText errText existsAfter sizeAfter ha ha2 hv hv2 ho ho2
      hr hrc hex hsz
    have hm := merge_now_valid st env run ha ha2 hv hv2 ho ho2
    simp only [mergeOutfile] at hm
    rw [hm, hr]
    simp only [classifyProc]
    rw [if_neg (by simp [hrc, hex, hsz])]
  · intro dt h1 h2 h3 h4 h5 h6 h7
    have hy := pad_shape 4 dt.year (by norm_num) (lt_of_lt_of_eq h2 (by norm_num))
    have hmo := pad_shape 2 dt.month (by norm_num) (lt_of_lt_of_eq h3 (by norm_num))
    have hd := pad_shape 2 dt.day (by norm_num) (lt_of_lt_of_eq h4 (by norm_num))
    have hh := pad_shape 2 dt.hour (by norm_num) (lt_of_lt_of_eq h5 (by norm_num))
    have hmi := pad_shape 2 dt.minute (by norm_num) (lt_of_lt_of_eq h6 (by norm_num))
    have hs := pad_shape 2 dt.second (by norm_num) (lt_of_lt_of_eq h7 (by norm_num))
    refine ⟨pad 4 dt.year, pad 2 dt.month, pad 2 dt.day, pad 2 dt.hour,
      pad 2 dt.minute, pad 2 dt.second, rfl, hy.1, hmo.1, hd.1, hh.1, hmi.1, hs.1, ?_⟩
    rw [toList_append, toList_append, toList_append, toList_append, toList_append,
      List.all_append, List.all_append, List.all_append, List.all_append,
      List.all_append, hy.2, hmo.2, hd.2, hh.2, hmi.2, hs.2]
    rfl

/-- Witness for C3: the frozen test clock yields exactly the expected
output path on a successful run. -/
theorem merge_output_path_format_witness :
    (merge_now stA envA runGood).1 = .Success "/out/20240307_090503.mp4" := by
  have h := merge_output_path_format.1 stA envA runGood 0 "" "" (fun _ => true)
    (fun _ => 1) (by decide) (by decide) (by decide) (by decide) (by decide)
    (by decide) rfl rfl rfl (by decide)
  exact h.trans (by decide)

/-- C4: a merge attempt past validation runs exactly the command
[resolved executable; `-hide_banner -loglevel error` (suppress everything
but error-level messages); `-y` (overwrite without prompting); `-nostdin`
(never read stdin); `-i` audio (first input); `-i` video (second input);
`-acodec copy -vcodec copy` (stream-copy both codecs); output path last]
and classifies its result. -/
theorem merge_command_construction (st : AppState) (env : Env)
    (run : List String → ProcResult)
    (ha : strip_quot_space st.audio_var ≠ "")
    (ha2 : env.isFile (strip_quot_space st.audio_var) = true)
    (hv : strip_quot_space st.video_var ≠ "")
    (hv2 : env.isFile (strip_quot_space st.video_var) = true)
    (ho : strip_quot_space st.outdir_var ≠ "")
    (ho2 : env.isDir (strip_quot_space st.outdir_var) = true) :
    merge_now st env run =
      classifyProc (mergeOutfile st env) st
        (run [which_ffmpeg env, "-hide_banner", "-loglevel", "error", "-y", "-nostdin",
          "-i", strip_quot_space st.audio_var, "-i", strip_quot_space st.video_var,
          "-acodec", "copy", "-vcodec", "copy", mergeOutfile st env]) :=
  merge_now_valid st env run ha ha2 hv hv2 ho ho2

/-- Witness for C4 at the concrete test fixture. -/
theorem merge_command_construction_witness :
    merge_now stA envA runGood =
      classifyProc (mergeOutfile stA envA) stA
        (runGood [which_ffmpeg envA, "-hide_banner", "-loglevel", "error", "-y",
          "-nostdin", "-i", "a.mp3", "-i", "v.mp4", "-acodec", "copy",
          "-vcodec", "copy", mergeOutfile stA envA]) :=
  merge_command_construction stA envA runGood (by decide) (by decide) (by decide)
    (by decide) (by decide) (by decide)

/-- C6: the executable locator tests each `PATH` entry in listed order
(with the platform executable name, `.exe`-suffixed on Windows) and
returns the first candidate that is a regular file; if none matches it
tests the script directory; failing that it returns the bare name.  It is
a total function, so it never raises. -/
theorem which_ffmpeg_spec (env : Env) :
    (∀ l1 d l2, pathDirs env = l1 ++ d :: l2 →
      (∀ d2 ∈ l1, env.isFile (pathCandidate env d2) = false) →
      env.isFile (pathCandidate env d) = true →
      which_ffmpeg env = pathCandidate env d) ∧
    ((∀ d ∈ pathDirs env, env.isFile (pathCandidate env d) = false) →
      env.isFile (localCandidate env) = true →
      which_ffmpeg env = localCandidate env) ∧
    ((∀ d ∈ pathDirs env, env.isFile (pathCandidate env d) = false) →
      env.isFile (localCandidate env) = false →
      which_ffmpeg env = ffmpegExeName env) ∧
    ffmpegExeName env = (if env.osIsNt then "ffmpeg.exe" else "ffmpeg") := by
  have hw : which_ffmpeg env =
      match (pathDirs env).find? (fun p => env.isFile (pathCandidate env p)) with
      | some p => pathCandidate env p
      | none => if env.isFile (localCandidate env) then localCandidate env
                else ffmpegExeName env := rfl
  refine ⟨?_, ?_, ?_, rfl⟩
  · intro l1 d l2 hsplit hnone hd
    rw [hw, hsplit, find?_append_none _ l1 (d :: l2) hnone,
      @List.find?_cons_of_pos String (fun x => env.isFile (pathCandidate env x)) d l2 hd]
  · intro hall hloc
    rw [hw, List.find?_eq_none.2 (fun a ha => by simp [hall a ha])]
    show (if env.isFile (localCandidate env) then localCandidate env
      else ffmpegExeName env) = localCandidate env
    rw [if_pos hloc]
  · intro hall hloc
    rw [hw, List.find?_eq_none.2 (fun a ha => by simp [hall a ha])]
    show (if env.isFile (localCandidate env) then localCandidate env
      else ffmpegExeName env) = ffmpegExeName env
    rw [if_neg (by simp [hloc])]

/-- Witness for C6: a `PATH` hit in the second entry, a script-directory
hit on Windows, and the bare-name fallback. -/
theorem which_ffmpeg_spec_witness :
    which_ffmpeg envPathHit = "/usr/bin/ffmpeg" ∧
    which_ffmpeg envLocalHit = "/app/ffmpeg.exe" ∧
    which_ffmpeg envMiss = "ffmpeg" := by
  refine ⟨?_, ?_, ?_⟩
  · have h := (which_ffmpeg_spec envPathHit).1 ["/opt"] "/usr/bin" [] (by decide)
      (by decide) (by decide)
    exact h.trans (by decide)
  · have h := (which_ffmpeg_spec envLocalHit).2.1 (by decide) (by decide)
    exact h.trans (by decide)
  · have h := (which_ffmpeg_spec envMiss).2.2.1 (by decide) (by decide)
    exact h.trans (by decide)
